import Mathlib

/-!
Shallow embedding of `src/transcripcion.py`, a four-step video-transcription
pipeline (extract audio, upload to object storage, transcribe, save the
transcript), together with theorems settling the specification's claims.

External effects (filesystem, network, cloud services) are modelled by a
`World` record of outcomes; the orchestrator is a pure function from the
world to an `Effects` record describing the observable side effects of a run.
String manipulation (`os.path.basename`, `os.path.splitext`, `str.strip`,
`str.split`) is embedded over `List Char` to keep every definition
executable by the kernel.
-/

namespace VideoTranscription

/-- Python `str.strip()`: remove whitespace from both ends. -/
def pyStrip (s : String) : String :=
  String.mk (((s.toList.dropWhile Char.isWhitespace).reverse.dropWhile
    Char.isWhitespace).reverse)

/-- Is the character a single or double quote?  Mirrors the argument of the
second `strip` in `value.strip().strip(quotes)` at transcripcion.py line 19. -/
def isQuoteChar (c : Char) : Bool :=
  c == Char.ofNat 34 || c == Char.ofNat 39

/-- Python `value.strip(quotes)`: remove quote characters from both ends. -/
def stripQuotes (s : String) : String :=
  String.mk (((s.toList.dropWhile isQuoteChar).reverse.dropWhile
    isQuoteChar).reverse)

/-- Python `line.split(c, 1)` for a separator character: the part before the
first occurrence and the part after it. -/
def splitOnce (sep : Char) (s : String) : String × String :=
  let cs := s.toList
  (String.mk (cs.takeWhile (fun c => c != sep)),
   String.mk ((cs.dropWhile (fun c => c != sep)).drop 1))

/-- The process environment, as in `os.environ`: a partial map from variable
names to values. -/
abbrev Env := String → Option String

/-- Python `os.environ.setdefault(key, value)`: add the binding only when the key is
absent (transcripcion.py line 20). -/
def setdefault (env : Env) (key value : String) : Env :=
  match env key with
  | some _ => env
  | none => fun q => if q = key then some value else env q

/-- The `load_dotenv` loop's guard (transcripcion.py line 16) on the
already-stripped line: not empty, not a `#` comment, and containing `=`. -/
def lineActive (line : String) : Bool :=
  line != "" && !(line.toList.headD ' ' == '#')
    && line.toList.any (fun c => c == '=')

/-- The key a settings line defines (transcripcion.py lines 17-18):
the stripped part before the first `=`. -/
def lineKey (rawLine : String) : String :=
  pyStrip (splitOnce '=' (pyStrip rawLine)).1

/-- The value a settings line defines (transcripcion.py lines 17 and 19):
the stripped, unquoted part after the first `=`. -/
def lineValue (rawLine : String) : String :=
  stripQuotes (pyStrip (splitOnce '=' (pyStrip rawLine)).2)

/-- One iteration of the `load_dotenv` loop (transcripcion.py lines 14-20):
strip the line; ignore it when empty, a `#` comment, or without `=`;
otherwise split at the first `=`, strip the key, strip and unquote the value,
and `setdefault` it into the environment. -/
def loadLine (env : Env) (rawLine : String) : Env :=
  if lineActive (pyStrip rawLine) then
    setdefault env (lineKey rawLine) (lineValue rawLine)
  else env

/-- The function `load_dotenv` (transcripcion.py lines 10-20) applied to the lines of an
existing settings file: fold the per-line update over the file. -/
def load_dotenv (lines : List String) (env : Env) : Env :=
  lines.foldl loadLine env

/-- The value the settings file assigns to `key`: the parsed value of the
first non-ignored line whose stripped key equals `key`.  Used to state what
`load_dotenv` adds for keys absent from the environment. -/
def fileBinding (key : String) : List String → Option String
  | [] => none
  | rawLine :: rest =>
    if lineActive (pyStrip rawLine) then
      if lineKey rawLine = key then some (lineValue rawLine)
      else fileBinding key rest
    else fileBinding key rest

/-- Python truthiness of `os.getenv` results as used by
`if not all([GCP_PROJECT_ID, GCS_BUCKET_NAME, AUDIO_LANGUAGE_CODE])`
(transcripcion.py line 31): `None` and the empty string are falsy. -/
def pyTruthy : Option String → Bool
  | none => false
  | some s => s != ""

/-- The module-level configuration validation (transcripcion.py lines 26-34):
all three required settings must be present and non-empty. -/
def configOk (env : Env) : Bool :=
  pyTruthy (env "GCP_PROJECT_ID") && pyTruthy (env "GCS_BUCKET_NAME")
    && pyTruthy (env "AUDIO_LANGUAGE_CODE")

/-- Python `os.path.basename`: the part of the path after the last slash. -/
def basename (p : String) : String :=
  String.mk ((p.toList.reverse.takeWhile (fun c => c != '/')).reverse)

/-- Python `os.path.splitext(name)[0]` for a name without separators: drop the part
from the last dot on, except that a run of leading dots is never an
extension (so a name that is all dots, or whose only dot starts it, is kept
whole). -/
def splitextRoot (s : String) : String :=
  let cs := s.toList
  let lead := cs.takeWhile (fun c => c == '.')
  let rest := cs.drop lead.length
  if rest.any (fun c => c == '.') then
    let extLen := (cs.reverse.takeWhile (fun c => c != '.')).length
    String.mk (cs.take (cs.length - extLen - 1))
  else s

/-- Python `os.path.join(a, b)` on POSIX: `b` alone when absolute, otherwise `a`
and `b` joined with a slash (none doubled). -/
def pathJoin (a b : String) : String :=
  if b.toList.headD ' ' == '/' then b
  else if a == "" || a.toList.getLastD ' ' == '/' then a ++ b
  else a ++ "/" ++ b

/-- The function `extraer_audio` (transcripcion.py lines 37-54): on success return the
path of the MP3 written under `outputs`, named after the video's base name;
on any extraction error return `None`.  The success of the moviepy calls is
an input (`extractOk`). -/
def extraer_audio (videoPath : String) (extractOk : Bool) : Option String :=
  if extractOk then
    let baseName := basename videoPath
    let audioFilename := splitextRoot baseName ++ ".mp3"
    some (pathJoin "outputs" audioFilename)
  else none

/-- The function `subir_a_gcs` (transcripcion.py lines 56-75): on success return
`gs://bucket/basename`; on any upload error return `None`.  The success of
the network transfer is an input (`uploadOk`). -/
def subir_a_gcs (filePath bucketName : String) (uploadOk : Bool) :
    Option String :=
  if uploadOk then
    let blobName := basename filePath
    some ("gs://" ++ bucketName ++ "/" ++ blobName)
  else none

/-- One recognition result segment: the ranked alternative transcripts the
service returns for it (best first). -/
abbrev RecognitionResult := List String

/-- The loop of `transcribir_audio_largo` (transcripcion.py lines 106-108):
append each segment's first alternative plus a newline to the accumulator;
indexing an empty alternative list raises, which the surrounding handler
turns into `None`. -/
def buildTranscription (acc : String) :
    List RecognitionResult → Option String
  | [] => some acc
  | alts :: rest =>
    match alts with
    | [] => none
    | t :: _ => buildTranscription (acc ++ t ++ "\n") rest

/-- The function `transcribir_audio_largo` (transcripcion.py lines 77-116): when the
long-running operation fails or times out (`outcome = none`) return `None`;
otherwise concatenate the segments as the loop does.  The service response
is an input. -/
def transcribir_audio_largo (gcsUri : String)
    (outcome : Option (List RecognitionResult)) : Option String :=
  match outcome with
  | none => none
  | some response => buildTranscription "" response

/-- The transcript path `guardar_transcripcion` writes to
(transcripcion.py lines 122-124). -/
def transcriptPath (videoPath : String) : String :=
  pathJoin "outputs" (splitextRoot (basename videoPath) ++ ".txt")

/-- The function `guardar_transcripcion` (transcripcion.py lines 118-131): attempt the
write; a failure is caught and logged, and nothing is returned either way.
The returned flag records only whether the file ended up on disk. -/
def guardar_transcripcion (videoPath texto : String) (writeOk : Bool) :
    Bool :=
  writeOk

/-- Outcomes of the external effects a run can attempt, fixed per run:
whether the video path exists, whether each fallible step succeeds, and the
recognition response (with `none` for an operation error or timeout). -/
structure World where
  videoExists : Bool
  extractOk : Bool
  uploadOk : Bool
  transcribeOutcome : Option (List RecognitionResult)
  writeOk : Bool
  deriving Repr

/-- The observable side effects of one run of the orchestrator. -/
structure Effects where
  madeOutputsDir : Bool
  extractAttempted : Bool
  audioCreated : Bool
  uploadAttempted : Bool
  remoteObjectCreated : Bool
  transcribeAttempted : Bool
  writeAttempted : Bool
  transcriptFileWritten : Bool
  audioDeleted : Bool
  completedReported : Bool
  deriving Repr, DecidableEq

/-- No effect at all (the state before `main` runs). -/
def noEffects : Effects :=
  { madeOutputsDir := false, extractAttempted := false, audioCreated := false,
    uploadAttempted := false, remoteObjectCreated := false,
    transcribeAttempted := false, writeAttempted := false,
    transcriptFileWritten := false, audioDeleted := false,
    completedReported := false }

/-- The effects of a run that stopped right after a failed extraction. -/
def extractFailedEffects : Effects :=
  { noEffects with madeOutputsDir := true, extractAttempted := true }

/-- The effects of a run that stopped right after a failed upload. -/
def uploadFailedEffects : Effects :=
  { noEffects with
    madeOutputsDir := true,
    extractAttempted := true,
    audioCreated := true,
    uploadAttempted := true }

/-- The effects of a run that stopped at the video-existence check: only
the outputs directory was created. -/
def dirOnlyEffects : Effects :=
  { noEffects with madeOutputsDir := true }

/-- The function `main` (transcripcion.py lines 134-165): create `outputs`, check the
video exists, then run extract, upload, transcribe and save in order,
returning early on a falsy result; on full success delete the local audio
file and report completion.  The write failure of
`guardar_transcripcion` is swallowed, so the final two effects do not
depend on `writeOk`. -/
def main (bucketName videoFilePath : String) (w : World) : Effects :=
  let e0 := { noEffects with madeOutputsDir := true }
  if !w.videoExists then e0
  else
    let e1 := { e0 with extractAttempted := true }
    match extraer_audio videoFilePath w.extractOk with
    | none => e1
    | some audioFile =>
      let e2 := { e1 with audioCreated := true, uploadAttempted := true }
      match subir_a_gcs audioFile bucketName w.uploadOk with
      | none => e2
      | some gcsUri =>
        let e3 :=
          { e2 with remoteObjectCreated := true, transcribeAttempted := true }
        match transcribir_audio_largo gcsUri w.transcribeOutcome with
        | none => e3
        | some texto =>
          if texto == "" then e3
          else
            { e3 with
              writeAttempted := true,
              transcriptFileWritten :=
                guardar_transcripcion videoFilePath texto w.writeOk,
              audioDeleted := true,
              completedReported := true }

/-- The environment after the optional `.env` file is loaded
(transcripcion.py lines 12 and 23): unchanged when the file does not exist. -/
def loadedEnv (env0 : Env) : Option (List String) → Env
  | none => env0
  | some lines => load_dotenv lines env0

/-- The whole process (module level plus the `__main__` block,
transcripcion.py lines 22-34 and 169-179): load the settings file, exit 1
when a required setting is missing or empty, exit 1 when no video argument
is given, otherwise run `main` and exit 0 (Python's implicit exit code for
a `main` that returns normally).  Returns the exit code and the run's
effects. -/
def runScript (argv : List String) (env0 : Env)
    (dotenvFile : Option (List String)) (w : World) : Nat × Effects :=
  let env := loadedEnv env0 dotenvFile
  if !configOk env then (1, noEffects)
  else if argv.length < 2 then (1, noEffects)
  else (0, main ((env "GCS_BUCKET_NAME").getD "") (argv.getD 1 "") w)

/-- Concatenation of a list of strings, in order. -/
def concatAll : List String → String
  | [] => ""
  | s :: rest => s ++ concatAll rest

/-! ### Helper lemmas -/

theorem setdefault_apply (env : Env) (key value q : String) :
    setdefault env key value q =
      match env key with
      | some _ => env q
      | none => if q = key then some value else env q := by
  unfold setdefault
  cases env key <;> rfl

theorem loadLine_eq (env : Env) (rawLine : String) :
    loadLine env rawLine =
      if lineActive (pyStrip rawLine) then
        setdefault env (lineKey rawLine) (lineValue rawLine)
      else env := rfl

theorem fileBinding_cons (key rawLine : String) (rest : List String) :
    fileBinding key (rawLine :: rest) =
      if lineActive (pyStrip rawLine) then
        if lineKey rawLine = key then some (lineValue rawLine)
        else fileBinding key rest
      else fileBinding key rest := rfl

theorem load_dotenv_lookup (lines : List String) (env : Env) (k : String) :
    load_dotenv lines env k = (env k).or (fileBinding k lines) := by
  induction lines generalizing env with
  | nil =>
    simp [load_dotenv, fileBinding]
  | cons l rest ih =>
    have hstep : load_dotenv (l :: rest) env =
        load_dotenv rest (loadLine env l) := rfl
    rw [hstep, ih, loadLine_eq, fileBinding_cons]
    by_cases hc : lineActive (pyStrip l) = true
    · rw [if_pos hc, if_pos hc, setdefault_apply]
      by_cases hk : lineKey l = k
      · rw [hk, if_pos rfl]
        cases henv : env k <;> simp [henv]
      · have hne : k ≠ lineKey l := fun h => hk h.symm
        rw [if_neg hk]
        cases henv : env (lineKey l) <;> simp [henv, hne]
    · rw [if_neg hc, if_neg hc]

theorem buildTranscription_eq (response : List RecognitionResult)
    (acc : String) (h : ∀ r ∈ response, r ≠ []) :
    buildTranscription acc response =
      some (acc ++ concatAll (response.map (fun r => r.headD "" ++ "\n"))) := by
  induction response generalizing acc with
  | nil =>
    simp [buildTranscription, concatAll]
  | cons r rest ih =>
    cases r with
    | nil => exact absurd rfl (h [] (List.mem_cons_self _ _))
    | cons t ts =>
      have hrest : ∀ s ∈ rest, s ≠ [] := fun s hs => h s (List.mem_cons_of_mem _ hs)
      show buildTranscription (acc ++ t ++ "\n") rest = _
      rw [ih (acc ++ t ++ "\n") hrest]
      simp [concatAll, String.append_assoc]

theorem concatAll_newline (l : List String) (hne : l ≠ []) :
    ∃ p, concatAll (l.map (fun s => s ++ "\n")) = p ++ "\n" := by
  induction l with
  | nil => exact absurd rfl hne
  | cons x rest ih =>
    cases rest with
    | nil =>
      refine ⟨x, ?_⟩
      simp [concatAll]
    | cons y t =>
      obtain ⟨p, hp⟩ := ih (by simp)
      refine ⟨x ++ "\n" ++ p, ?_⟩
      show (x ++ "\n") ++ concatAll ((y :: t).map (fun s => s ++ "\n")) = _
      rw [hp]
      simp [String.append_assoc]

theorem basename_no_slash (p : String) :
    ∀ c ∈ (basename p).toList, (c != '/') = true := by
  intro c hc
  have hc' : c ∈ p.toList.reverse.takeWhile (fun d => d != '/') :=
    List.mem_reverse.mp hc
  exact List.mem_takeWhile_imp (p := fun d => d != '/') hc'

theorem splitextRoot_chars (s : String) (pr : Char → Bool)
    (h : ∀ c ∈ s.toList, pr c = true) :
    ∀ c ∈ (splitextRoot s).toList, pr c = true := by
  intro c hc
  unfold splitextRoot at hc
  by_cases hany : ((s.toList.drop (s.toList.takeWhile
      (fun c => c == '.')).length).any fun c => c == '.') = true
  · rw [if_pos hany] at hc
    exact h c ((List.take_sublist _ _).subset hc)
  · rw [if_neg hany] at hc
    exact h c hc

theorem head_append_ne_slash (a : String) (suffix : List Char)
    (ha : ∀ c ∈ a.toList, (c != '/') = true)
    (hs : ∀ c ∈ suffix, (c != '/') = true) (hsuf : suffix ≠ []) :
    ((a ++ String.mk suffix).toList.headD ' ' == '/') = false := by
  have happ : (a ++ String.mk suffix).toList = a.toList ++ suffix := by
    simp [String.toList, String.data_append]
  rw [happ]
  cases hl : a.toList with
  | nil =>
    simp only [List.nil_append]
    cases suffix with
    | nil => exact absurd rfl hsuf
    | cons c cs =>
      have := hs c (List.mem_cons_self _ _)
      simpa using this
  | cons c cs =>
    simp only [List.cons_append, List.headD_cons]
    have : c ∈ a.toList := by
      rw [hl]; exact List.mem_cons_self _ _
    have := ha c this
    simpa using this

theorem pathJoin_outputs (f : String)
    (h : (f.toList.headD ' ' == '/') = false) :
    pathJoin "outputs" f = "outputs/" ++ f := by
  unfold pathJoin
  rw [if_neg (by simpa using h), if_neg (by decide)]
  rfl

/-! ### Claim theorems -/

/-- C3: configuration loading never overwrites an environment variable that
is already set — a key present before loading keeps its value, whatever the
settings file says — and a key not previously set ends up bound to the
(stripped, unquoted) value the file assigns it. -/
theorem c3_no_overwrite (lines : List String) (env : Env) (key : String) :
    (∀ v, env key = some v → load_dotenv lines env key = some v) ∧
    (env key = none → load_dotenv lines env key = fileBinding key lines) := by
  constructor
  · intro v hv
    rw [load_dotenv_lookup, hv]
    rfl
  · intro hnone
    rw [load_dotenv_lookup, hnone]
    rfl

/-- Witness for C3, at the spec's own example: a pre-set
`GCP_PROJECT_ID=x` plus a file line defining `GCP_PROJECT_ID=y` yields `x`,
while an unset environment picks up `y` from the file. -/
theorem c3_no_overwrite_witness :
    load_dotenv ["GCP_PROJECT_ID=y"]
        (fun k => if k = "GCP_PROJECT_ID" then some "x" else none)
        "GCP_PROJECT_ID" = some "x" ∧
    load_dotenv ["GCP_PROJECT_ID=y"] (fun _ => none)
        "GCP_PROJECT_ID" = some "y" := by
  constructor
  · exact (c3_no_overwrite ["GCP_PROJECT_ID=y"]
      (fun k => if k = "GCP_PROJECT_ID" then some "x" else none)
      "GCP_PROJECT_ID").1 "x" (by decide)
  · have h := (c3_no_overwrite ["GCP_PROJECT_ID=y"] (fun _ => none)
      "GCP_PROJECT_ID").2 rfl
    rw [h]
    decide

/-- C4: when the long-running operation completes, the transcription step
returns exactly the concatenation, in service order, of each segment's
first alternative transcript with a newline appended after each one
(provided each segment carries at least one alternative, as indexing an
empty alternative list would abort the step); in particular any non-empty
returned transcript ends in a newline. -/
theorem c4_transcription_concat (gcsUri : String)
    (response : List RecognitionResult)
    (h : ∀ r ∈ response, r ≠ []) :
    transcribir_audio_largo gcsUri (some response) =
      some (concatAll (response.map (fun r => r.headD "" ++ "\n"))) ∧
    (∀ s, transcribir_audio_largo gcsUri (some response) = some s →
      s ≠ "" → ∃ p, s = p ++ "\n") := by
  have hb : transcribir_audio_largo gcsUri (some response) =
      some (concatAll (response.map (fun r => r.headD "" ++ "\n"))) := by
    show buildTranscription "" response = _
    rw [buildTranscription_eq response "" h]
    simp
  refine ⟨hb, ?_⟩
  intro s hs hne
  rw [hb] at hs
  have hsval : s = concatAll (response.map (fun r => r.headD "" ++ "\n")) :=
    (Option.some.injEq _ _ ▸ hs).symm
  cases hresp : response with
  | nil =>
    rw [hresp] at hsval
    simp [concatAll] at hsval
    exact absurd hsval hne
  | cons r rest =>
    have hmm : (response.map (fun r => r.headD "")).map
        (fun s => s ++ "\n") = response.map (fun r => r.headD "" ++ "\n") := by
      simp [List.map_map]
    obtain ⟨p, hp⟩ := concatAll_newline (response.map (fun r => r.headD ""))
      (by rw [hresp]; simp)
    rw [hmm] at hp
    exact ⟨p, hsval.trans hp⟩

/-- Witness for C4: a two-segment response yields the two top transcripts
each followed by a newline, concatenated in order. -/
theorem c4_transcription_concat_witness :
    transcribir_audio_largo "gs://bucket/clip.mp3"
      (some [["hello", "hola"], ["world"]]) = some "hello\nworld\n" := by
  have h := (c4_transcription_concat "gs://bucket/clip.mp3"
    [["hello", "hola"], ["world"]] (by decide)).1
  rw [h]
  rfl

/-- C5: on success, extraction returns a path in the `outputs` directory
whose file name is the video's base name with its extension replaced by
`.mp3`; for instance `dir/clip.mp4` yields `outputs/clip.mp3`. -/
theorem c5_extraction_path (videoPath : String) :
    extraer_audio videoPath true =
      some ("outputs/" ++ (splitextRoot (basename videoPath) ++ ".mp3")) ∧
    extraer_audio "dir/clip.mp4" true = some "outputs/clip.mp3" := by
  constructor
  · show some (pathJoin "outputs" (splitextRoot (basename videoPath) ++ ".mp3"))
      = _
    rw [pathJoin_outputs]
    exact head_append_ne_slash (splitextRoot (basename videoPath))
      ".mp3".toList
      (splitextRoot_chars (basename videoPath) (fun c => c != '/')
        (basename_no_slash videoPath))
      (by decide) (by decide)
  · rfl

/-- C1: when extraction, upload and transcription succeed with a non-empty
transcript but the transcript write fails, the orchestrator still deletes
the local audio artifact and reports completion, and the run's effects
differ from a fully successful run only in whether the transcript file
exists on disk. -/
theorem c1_write_failure_invisible (bucketName videoFilePath : String)
    (w : World) (hv : w.videoExists = true) (he : w.extractOk = true)
    (hu : w.uploadOk = true) (t : String)
    (ht : ∀ uri, transcribir_audio_largo uri w.transcribeOutcome = some t)
    (hne : t ≠ "") (hw : w.writeOk = false) :
    (main bucketName videoFilePath w).audioDeleted = true ∧
    (main bucketName videoFilePath w).completedReported = true ∧
    (main bucketName videoFilePath w).transcriptFileWritten = false ∧
    main bucketName videoFilePath { w with writeOk := true } =
      { main bucketName videoFilePath w with transcriptFileWritten := true } := by
  have hbeq : (t == "") = false := by
    simp [hne]
  simp only [main, extraer_audio, subir_a_gcs, hv, he, hu, hw, ht, hbeq,
    Bool.not_true, if_true, if_false, Bool.false_eq_true, guardar_transcripcion]
  simp [guardar_transcripcion, hw]

/-- Witness for C1: on a concrete run whose transcript write fails, the
audio artifact is still deleted and completion is still reported. -/
theorem c1_write_failure_invisible_witness :
    (main "bucket" "dir/clip.mp4"
      { videoExists := true, extractOk := true, uploadOk := true,
        transcribeOutcome := some [["hi"]], writeOk := false }).audioDeleted
      = true ∧
    (main "bucket" "dir/clip.mp4"
      { videoExists := true, extractOk := true, uploadOk := true,
        transcribeOutcome := some [["hi"]],
        writeOk := false }).completedReported = true :=
  have h := c1_write_failure_invisible "bucket" "dir/clip.mp4"
    { videoExists := true, extractOk := true, uploadOk := true,
      transcribeOutcome := some [["hi"]], writeOk := false }
    rfl rfl rfl "hi\n" (fun _ => rfl) (by decide) rfl
  ⟨h.1, h.2.1⟩

/-- C6: when extraction fails, the run halts there: the only effects are
the creation of the outputs directory and the extraction attempt itself —
no upload, no transcription, no transcript write, no remote object, no
deletion. -/
theorem c6_extraction_failure_halts (bucketName videoFilePath : String)
    (w : World) (hv : w.videoExists = true) (he : w.extractOk = false) :
    main bucketName videoFilePath w = extractFailedEffects := by
  simp [main, extraer_audio, extractFailedEffects, hv, he]

/-- Witness for C6 at a concrete world with a failing extraction. -/
theorem c6_extraction_failure_halts_witness :
    main "bucket" "dir/clip.mp4"
      { videoExists := true, extractOk := false, uploadOk := true,
        transcribeOutcome := some [["hi"]], writeOk := true } =
      extractFailedEffects :=
  c6_extraction_failure_halts "bucket" "dir/clip.mp4"
    { videoExists := true, extractOk := false, uploadOk := true,
      transcribeOutcome := some [["hi"]], writeOk := true } rfl rfl

/-- C7: when extraction succeeds but the upload fails, the run halts before
transcription and the local audio file stays on disk: the audio was created
but never deleted, and neither transcription nor the transcript write is
attempted. -/
theorem c7_upload_failure_halts (bucketName videoFilePath : String)
    (w : World) (hv : w.videoExists = true) (he : w.extractOk = true)
    (hu : w.uploadOk = false) :
    main bucketName videoFilePath w = uploadFailedEffects := by
  simp [main, extraer_audio, subir_a_gcs, uploadFailedEffects, hv, he, hu]

/-- Witness for C7 at a concrete world with a failing upload. -/
theorem c7_upload_failure_halts_witness :
    main "bucket" "dir/clip.mp4"
      { videoExists := true, extractOk := true, uploadOk := false,
        transcribeOutcome := some [["hi"]], writeOk := true } =
      uploadFailedEffects :=
  c7_upload_failure_halts "bucket" "dir/clip.mp4"
    { videoExists := true, extractOk := true, uploadOk := false,
      transcribeOutcome := some [["hi"]], writeOk := true } rfl rfl rfl

/-- C8: a transcription that completes without error but yields the empty
string (zero result segments) is treated exactly like a transcription
failure: the run's effects equal those of a run whose recognition operation
failed, and in particular no transcript write is attempted and the audio
file is not deleted. -/
theorem c8_empty_transcription_like_failure (bucketName videoFilePath : String)
    (w : World) (hv : w.videoExists = true) (he : w.extractOk = true)
    (hu : w.uploadOk = true) (ht : w.transcribeOutcome = some []) :
    main bucketName videoFilePath w =
      main bucketName videoFilePath { w with transcribeOutcome := none } ∧
    (main bucketName videoFilePath w).writeAttempted = false ∧
    (main bucketName videoFilePath w).audioDeleted = false := by
  simp [main, extraer_audio, subir_a_gcs, transcribir_audio_largo,
    buildTranscription, noEffects, hv, he, hu, ht]

/-- Witness for C8 at a concrete world whose recognition response has zero
segments. -/
theorem c8_empty_transcription_like_failure_witness :
    (main "bucket" "dir/clip.mp4"
      { videoExists := true, extractOk := true, uploadOk := true,
        transcribeOutcome := some [], writeOk := true }).writeAttempted
      = false ∧
    (main "bucket" "dir/clip.mp4"
      { videoExists := true, extractOk := true, uploadOk := true,
        transcribeOutcome := some [], writeOk := true }).audioDeleted
      = false :=
  have h := c8_empty_transcription_like_failure "bucket" "dir/clip.mp4"
    { videoExists := true, extractOk := true, uploadOk := true,
      transcribeOutcome := some [], writeOk := true } rfl rfl rfl rfl
  ⟨h.2.1, h.2.2⟩

/-- C10: every run of the orchestrator creates the outputs directory, and a
run whose video path does not exist performs no pipeline step yet still
leaves the directory behind as its only effect. -/
theorem c10_outputs_dir_always_created (bucketName videoFilePath : String)
    (w : World) :
    (main bucketName videoFilePath w).madeOutputsDir = true ∧
    (w.videoExists = false →
      main bucketName videoFilePath w = dirOnlyEffects) := by
  constructor
  · simp only [main]
    repeat' split <;> try rfl
  · intro hv
    simp [main, dirOnlyEffects, hv]

/-- Witness for C10: a run on a missing video creates only the outputs
directory. -/
theorem c10_outputs_dir_always_created_witness :
    main "bucket" "missing.mp4"
      { videoExists := false, extractOk := true, uploadOk := true,
        transcribeOutcome := some [["hi"]], writeOk := true } =
      dirOnlyEffects :=
  (c10_outputs_dir_always_created "bucket" "missing.mp4"
    { videoExists := false, extractOk := true, uploadOk := true,
      transcribeOutcome := some [["hi"]], writeOk := true }).2 rfl

/-- C2: once the two pre-flight checks pass (a video argument is present
and all three required settings are set and non-empty), the process exit
code is 0, for every world and hence for every pipeline step failure; the
exit code is 1 exactly when a pre-flight check fails. -/
theorem c2_exit_codes (argv : List String) (env0 : Env)
    (dotenvFile : Option (List String)) (w : World) :
    (runScript argv env0 dotenvFile w).1 =
      if configOk (loadedEnv env0 dotenvFile) = true ∧ 2 ≤ argv.length
      then 0 else 1 := by
  unfold runScript
  by_cases hc : configOk (loadedEnv env0 dotenvFile) = true
  · by_cases ha : argv.length < 2
    · have : ¬ 2 ≤ argv.length := by omega
      simp [hc, ha, this]
    · have : 2 ≤ argv.length := by omega
      simp [hc, ha, this]
  · have hc' : configOk (loadedEnv env0 dotenvFile) = false :=
      Bool.not_eq_true _ ▸ (by simpa using hc)
    simp [hc, hc']

/-- C9: a required setting whose environment value is the empty string is
treated like an absent one — the process exits with status 1 having
performed no pipeline effect at all. -/
theorem c9_empty_config_fatal (argv : List String) (env0 : Env)
    (dotenvFile : Option (List String)) (w : World) (name : String)
    (hname : name = "GCP_PROJECT_ID" ∨ name = "GCS_BUCKET_NAME" ∨
      name = "AUDIO_LANGUAGE_CODE")
    (hempty : env0 name = some "") :
    runScript argv env0 dotenvFile w = (1, noEffects) := by
  have hkeep : loadedEnv env0 dotenvFile name = some "" := by
    cases dotenvFile with
    | none => exact hempty
    | some lines =>
      show load_dotenv lines env0 name = some ""
      rw [load_dotenv_lookup, hempty]
      rfl
  have hfalse : pyTruthy (loadedEnv env0 dotenvFile name) = false := by
    rw [hkeep]
    rfl
  have hcfg : configOk (loadedEnv env0 dotenvFile) = false := by
    unfold configOk
    rcases hname with h | h | h <;> rw [h] at hfalse <;> simp [hfalse]
  unfold runScript
  simp [hcfg]

/-- Witness for C9: with `GCS_BUCKET_NAME` set to the empty string the
script exits 1 with no effects, even though a video argument is present. -/
theorem c9_empty_config_fatal_witness :
    runScript ["transcripcion.py", "video.mp4"]
      (fun k => if k = "GCS_BUCKET_NAME" then some "" else some "x") none
      { videoExists := true, extractOk := true, uploadOk := true,
        transcribeOutcome := some [["hi"]], writeOk := true } =
      (1, noEffects) :=
  c9_empty_config_fatal ["transcripcion.py", "video.mp4"]
    (fun k => if k = "GCS_BUCKET_NAME" then some "" else some "x") none
    { videoExists := true, extractOk := true, uploadOk := true,
      transcribeOutcome := some [["hi"]], writeOk := true }
    "GCS_BUCKET_NAME" (Or.inr (Or.inl rfl)) (by decide)

end VideoTranscription
